import Mathlib

/-!
Shallow embedding of the `dent` statistics tool's linear-regression core
(`src/lr.rs`) and of the CLI input helpers (`src/bin.rs`).

Floating-point (`f64`) arithmetic is embedded as real-number arithmetic,
with Lean's junk values (`x / 0 = 0`, `Real.sqrt` of a negative number
is `0`) standing in for the non-finite values (`NaN`, `±inf`) that the
`f64` operations produce at the same zero divisors and negative
square-root arguments.
-/

/-- Modelled from the spec: the error kind `EmptySample` ("no data points
available to summarize or fit").  The error type itself lives in the
repository's `error` module, which is not part of the provided sources;
only `EmptySample` is reachable from the embedded code. -/
inductive Error where
  | EmptySample
deriving DecidableEq

/-- Modelled from the spec: `mean` = arithmetic average of the sample
(spec 4.1).  The `Summarizer` implementation lives in the repository's
`summary` module, which is not part of the provided sources. -/
noncomputable def sampleMean (l : List ℝ) : ℝ := l.sum / l.length

/-- Modelled from the spec: variance = `Σ(x−mean)² / (size−1)`
(Bessel's correction, spec 4.1). -/
noncomputable def sampleVariance (l : List ℝ) : ℝ :=
  (l.map (fun v => (v - sampleMean l) ^ 2)).sum / ((l.length : ℝ) - 1)

/-- Modelled from the spec: `standard_deviation` = `√variance`
(spec 4.1). -/
noncomputable def sampleStdDev (l : List ℝ) : ℝ :=
  Real.sqrt (sampleVariance l)

/-- Modelled from the spec: the `Summarizer` caches descriptive statistics
of one sample (spec 4.1); the embedded regression code only consumes its
`mean` and `standard_deviation`. -/
structure Summarizer where
  sample : List ℝ

/-- Modelled from the spec: `Summary.from(sample)` fails with `EmptySample`
if the sample is empty (spec 4.1). -/
def Summarizer.new (data : List ℝ) : Except Error Summarizer :=
  if data.isEmpty then .error .EmptySample else .ok ⟨data⟩

/-- Modelled from the spec: the cached `mean` accessor (spec 4.1). -/
noncomputable def Summarizer.mean (s : Summarizer) : ℝ := sampleMean s.sample

/-- Modelled from the spec: the cached `standard_deviation` accessor
(spec 4.1). -/
noncomputable def Summarizer.standard_deviation (s : Summarizer) : ℝ :=
  sampleStdDev s.sample

/-- The `LinearRegression` struct of `src/lr.rs` (fields `intercept`, `r`,
`slope`, `standard_error`); the Rust accessors `intercept()`, `r()`,
`slope()`, `standard_error()` simply return the fields, embedded here as
the field projections. -/
structure LinearRegression where
  intercept : ℝ
  r : ℝ
  slope : ℝ
  standard_error : ℝ

/-- `LinearRegression::simple_lr` from `src/lr.rs`: unzip the pairs,
summarize both coordinate sequences, then compute `r`, `slope`,
`intercept` and the standard error of the slope by the source's
formulas. -/
noncomputable def LinearRegression.simple_lr (data : List (ℝ × ℝ)) :
    Except Error LinearRegression :=
  let n : ℝ := data.length
  let x := data.map Prod.fst
  let y := data.map Prod.snd
  match Summarizer.new x with
  | .error e => .error e
  | .ok summ_x =>
    match Summarizer.new y with
    | .error e => .error e
    | .ok summ_y =>
      let mean_x := summ_x.mean
      let mean_y := summ_y.mean
      let std_x := summ_x.standard_deviation
      let std_y := summ_y.standard_deviation
      let r_num : ℝ :=
        ∑ i in Finset.range x.length, (x.getD i 0 - mean_x) * (y.getD i 0 - mean_y)
      let r_den := (n - 1) * std_x * std_y
      let r := r_num / r_den
      let slope := r * (std_y / std_x)
      let intercept := mean_y - slope * mean_x
      let df := n - 2
      let standard_error := (slope / Real.sqrt df) * Real.sqrt (1 / r ^ 2 - 1)
      .ok { intercept := intercept, r := r, slope := slope,
            standard_error := standard_error }

/-- `LinearRegression::new` from `src/lr.rs`: reject an empty slice with
`EmptySample`, otherwise run `simple_lr`. -/
noncomputable def LinearRegression.new (data : List (ℝ × ℝ)) :
    Except Error LinearRegression :=
  if data.isEmpty then .error .EmptySample
  else LinearRegression.simple_lr data

/-- The value the source computes as `r_num`: the covariance sum over the
index range of the unzipped coordinate lists. -/
noncomputable def r_num (data : List (ℝ × ℝ)) : ℝ :=
  ∑ i in Finset.range (data.map Prod.fst).length,
    ((data.map Prod.fst).getD i 0 - sampleMean (data.map Prod.fst)) *
      ((data.map Prod.snd).getD i 0 - sampleMean (data.map Prod.snd))

/-- The value the source computes as `r`. -/
noncomputable def r_val (data : List (ℝ × ℝ)) : ℝ :=
  r_num data /
    (((data.length : ℝ) - 1) * sampleStdDev (data.map Prod.fst) *
      sampleStdDev (data.map Prod.snd))

/-- The value the source computes as `slope`. -/
noncomputable def slope_val (data : List (ℝ × ℝ)) : ℝ :=
  r_val data *
    (sampleStdDev (data.map Prod.snd) / sampleStdDev (data.map Prod.fst))

/-- The value the source computes as `intercept`. -/
noncomputable def intercept_val (data : List (ℝ × ℝ)) : ℝ :=
  sampleMean (data.map Prod.snd) - slope_val data * sampleMean (data.map Prod.fst)

/-- The value the source computes as `standard_error`. -/
noncomputable def se_val (data : List (ℝ × ℝ)) : ℝ :=
  (slope_val data / Real.sqrt ((data.length : ℝ) - 2)) *
    Real.sqrt (1 / r_val data ^ 2 - 1)

/-- A fixed paired sample used as a concrete test vector (spec 8,
scenario 4). -/
def sample3 : List (ℝ × ℝ) := [(1, 2), (2, 4), (3, 6)]

/-- A degenerate paired sample: all x coordinates equal, so `stdX = 0`. -/
def sampleDeg : List (ℝ × ℝ) := [(1, 1), (1, 2)]

/-- `read_data` from `src/bin.rs`: iterate over the input lines; trim each
line, skip it when the trimmed line is empty, otherwise parse it, pushing
parsed values in order.  A line that fails to parse is skipped when
`lax_parsing` is set and otherwise aborts the whole read (the Rust code
panics via `unwrap`, embedded as an `Except.error` carrying the
offending trimmed line as the diagnostic).  The `trim`, `is_empty` and
`parse` parameters abstract the Rust standard-library operations
`str::trim`, `str::is_empty` and `str::parse::<f64>`, which are not part
of this repository. -/
def read_data {σ α : Type} (trim : σ → σ) (is_empty : σ → Bool)
    (parse : σ → Option α) (lax_parsing : Bool) : List σ → Except σ (List α)
  | [] => .ok []
  | l :: ls =>
    let s := trim l
    if is_empty s then read_data trim is_empty parse lax_parsing ls
    else
      match parse s with
      | some d =>
        match read_data trim is_empty parse lax_parsing ls with
        | .ok rest => .ok (d :: rest)
        | .error e => .error e
      | none =>
        if lax_parsing then read_data trim is_empty parse lax_parsing ls
        else .error s

/-- Modelled from the spec: the closed set of accepted two-tailed
significance levels {0.001, 0.005, 0.01, 0.025, 0.05, 0.1} (spec 3).
The `SigLevel` enum itself lives in the repository's `t_test` module,
which is not part of the provided sources; the constructor names follow
the `use dent::t_test::SigLevel` import in `src/bin.rs`. -/
inductive SigLevel where
  | Alpha001
  | Alpha005
  | Alpha010
  | Alpha025
  | Alpha050
  | Alpha100
deriving DecidableEq

/-- `parse_alpha` from `src/bin.rs`: map the six accepted string forms to
their `SigLevel` and reject every other string (the Rust code panics,
embedded as `Except.error ()`, the invalid-configuration diagnostic). -/
def parse_alpha (arg : String) : Except Unit SigLevel :=
  if arg = ".001" then .ok .Alpha001
  else if arg = ".005" then .ok .Alpha005
  else if arg = ".01" then .ok .Alpha010
  else if arg = ".025" then .ok .Alpha025
  else if arg = ".05" then .ok .Alpha050
  else if arg = ".1" then .ok .Alpha100
  else .error ()

theorem new_eq_ok (data : List (ℝ × ℝ)) (h : data ≠ []) :
    LinearRegression.new data =
      .ok { intercept := intercept_val data, r := r_val data,
            slope := slope_val data, standard_error := se_val data } := by
  have hx : (data.map Prod.fst).isEmpty = false := by
    simp [List.isEmpty_iff, h]
  have hy : (data.map Prod.snd).isEmpty = false := by
    simp [List.isEmpty_iff, h]
  have hd : data.isEmpty = false := by
    simp [List.isEmpty_iff, h]
  simp only [LinearRegression.new, LinearRegression.simple_lr, Summarizer.new,
    hx, hy, hd, Bool.false_eq_true, if_false]
  simp only [Summarizer.mean, Summarizer.standard_deviation, id_eq]
  congr 1

theorem sum_range_getD {α : Type} (f : α → ℝ) (d : α) (l : List α) :
    ∑ i in Finset.range l.length, f (l.getD i d) = (l.map f).sum := by
  induction l with
  | nil => simp
  | cons a t ih =>
    rw [List.length_cons, Finset.sum_range_succ']
    simp only [List.getD_cons_succ, List.getD_cons_zero, List.map_cons, List.sum_cons]
    rw [ih, add_comm]

theorem getD_fst (data : List (ℝ × ℝ)) (i : ℕ) :
    (data.map Prod.fst).getD i 0 = (data.getD i (0, 0)).1 := by
  induction data generalizing i with
  | nil => simp [List.getD]
  | cons a t ih =>
    cases i with
    | zero => simp
    | succ j => simpa using ih j

theorem getD_snd (data : List (ℝ × ℝ)) (i : ℕ) :
    (data.map Prod.snd).getD i 0 = (data.getD i (0, 0)).2 := by
  induction data generalizing i with
  | nil => simp [List.getD]
  | cons a t ih =>
    cases i with
    | zero => simp
    | succ j => simpa using ih j

theorem r_num_eq (data : List (ℝ × ℝ)) :
    r_num data =
      (data.map (fun p =>
        (p.1 - sampleMean (data.map Prod.fst)) *
          (p.2 - sampleMean (data.map Prod.snd)))).sum := by
  unfold r_num
  rw [List.length_map]
  calc
    ∑ i in Finset.range data.length,
        ((data.map Prod.fst).getD i 0 - sampleMean (data.map Prod.fst)) *
          ((data.map Prod.snd).getD i 0 - sampleMean (data.map Prod.snd)) =
        ∑ i in Finset.range data.length,
          (fun p : ℝ × ℝ =>
            (p.1 - sampleMean (data.map Prod.fst)) *
              (p.2 - sampleMean (data.map Prod.snd))) (data.getD i (0, 0)) := by
      refine Finset.sum_congr rfl fun i _ => ?_
      rw [getD_fst, getD_snd]
    _ = _ :=
      sum_range_getD
        (fun p : ℝ × ℝ =>
          (p.1 - sampleMean (data.map Prod.fst)) *
            (p.2 - sampleMean (data.map Prod.snd)))
        (0, 0) data

theorem mean_x3 : sampleMean ([1, 2, 3] : List ℝ) = 2 := by
  simp [sampleMean]
  norm_num

theorem mean_y3 : sampleMean ([2, 4, 6] : List ℝ) = 4 := by
  simp [sampleMean]
  norm_num

theorem stdDev_x3 : sampleStdDev ([1, 2, 3] : List ℝ) = 1 := by
  have hv : sampleVariance ([1, 2, 3] : List ℝ) = 1 := by
    simp [sampleVariance, mean_x3]
    norm_num
  rw [sampleStdDev, hv, Real.sqrt_one]

theorem stdDev_y3 : sampleStdDev ([2, 4, 6] : List ℝ) = 2 := by
  have hv : sampleVariance ([2, 4, 6] : List ℝ) = 4 := by
    simp [sampleVariance, mean_y3]
    norm_num
  rw [sampleStdDev, hv, show (4 : ℝ) = 2 ^ 2 by norm_num,
    Real.sqrt_sq (by norm_num : (0 : ℝ) ≤ 2)]

theorem map_fst_s3 : sample3.map Prod.fst = [1, 2, 3] := rfl

theorem map_snd_s3 : sample3.map Prod.snd = [2, 4, 6] := rfl

theorem r_num_s3 : r_num sample3 = 4 := by
  rw [r_num_eq, map_fst_s3, map_snd_s3, mean_x3, mean_y3]
  simp [sample3]
  norm_num

theorem r_val_s3 : r_val sample3 = 1 := by
  rw [r_val, r_num_s3, map_fst_s3, map_snd_s3, stdDev_x3, stdDev_y3]
  norm_num [sample3]

theorem slope_val_s3 : slope_val sample3 = 2 := by
  rw [slope_val, r_val_s3, map_fst_s3, map_snd_s3, stdDev_x3, stdDev_y3]
  norm_num

theorem intercept_val_s3 : intercept_val sample3 = 0 := by
  rw [intercept_val, slope_val_s3, map_fst_s3, map_snd_s3, mean_x3, mean_y3]
  norm_num

theorem se_val_s3 : se_val sample3 = 0 := by
  rw [se_val, slope_val_s3, r_val_s3]
  norm_num [sample3]

theorem lr_sample3 :
    LinearRegression.new sample3 =
      .ok { intercept := 0, r := 1, slope := 2, standard_error := 0 } := by
  rw [new_eq_ok sample3 (by simp [sample3]), intercept_val_s3, r_val_s3,
    slope_val_s3, se_val_s3]

theorem map_fst_deg : sampleDeg.map Prod.fst = [1, 1] := rfl

theorem map_snd_deg : sampleDeg.map Prod.snd = [1, 2] := rfl

theorem mean_x_deg : sampleMean ([1, 1] : List ℝ) = 1 := by
  simp [sampleMean]

theorem mean_y_deg : sampleMean ([1, 2] : List ℝ) = 3 / 2 := by
  simp [sampleMean]
  norm_num

theorem stdDev_x_deg : sampleStdDev ([1, 1] : List ℝ) = 0 := by
  have hv : sampleVariance ([1, 1] : List ℝ) = 0 := by
    simp [sampleVariance, mean_x_deg]
  rw [sampleStdDev, hv, Real.sqrt_zero]

theorem r_num_deg : r_num sampleDeg = 0 := by
  rw [r_num_eq, map_fst_deg, map_snd_deg, mean_x_deg]
  simp [sampleDeg]

theorem r_val_deg : r_val sampleDeg = 0 := by
  rw [r_val, r_num_deg, zero_div]

theorem slope_val_deg : slope_val sampleDeg = 0 := by
  rw [slope_val, r_val_deg, zero_mul]

theorem intercept_val_deg : intercept_val sampleDeg = 3 / 2 := by
  rw [intercept_val, slope_val_deg, map_snd_deg, mean_y_deg, zero_mul, sub_zero]

theorem se_val_deg : se_val sampleDeg = 0 := by
  rw [se_val, slope_val_deg, zero_div, zero_mul]

theorem lr_sampleDeg :
    LinearRegression.new sampleDeg =
      .ok { intercept := 3 / 2, r := 0, slope := 0, standard_error := 0 } := by
  rw [new_eq_ok sampleDeg (by simp [sampleDeg]), intercept_val_deg, r_val_deg,
    slope_val_deg, se_val_deg]

theorem abs_r_val_le_one (data : List (ℝ × ℝ))
    (hx : 0 < sampleStdDev (data.map Prod.fst))
    (hy : 0 < sampleStdDev (data.map Prod.snd)) :
    |r_val data| ≤ 1 := by
  have hxlen : (data.map Prod.fst).length = data.length := List.length_map data Prod.fst
  have hylen : (data.map Prod.snd).length = data.length := List.length_map data Prod.snd
  have hA0 :
      0 ≤ ((data.map Prod.fst).map (fun v => (v - sampleMean (data.map Prod.fst)) ^ 2)).sum := by
    apply List.sum_nonneg
    intro a ha
    simp only [List.mem_map] at ha
    obtain ⟨v, -, rfl⟩ := ha
    positivity
  have hB0 :
      0 ≤ ((data.map Prod.snd).map (fun v => (v - sampleMean (data.map Prod.snd)) ^ 2)).sum := by
    apply List.sum_nonneg
    intro a ha
    simp only [List.mem_map] at ha
    obtain ⟨v, -, rfl⟩ := ha
    positivity
  rw [sampleStdDev] at hx hy
  have hvarx := Real.sqrt_pos.mp hx
  have hvary := Real.sqrt_pos.mp hy
  rw [sampleVariance, hxlen] at hvarx
  rw [sampleVariance, hylen] at hvary
  rcases div_pos_iff.mp hvarx with ⟨hApos, hc⟩ | ⟨hAneg, -⟩
  swap
  · linarith
  rcases div_pos_iff.mp hvary with ⟨hBpos, -⟩ | ⟨hBneg, -⟩
  swap
  · linarith
  have hscne : Real.sqrt ((data.length : ℝ) - 1) ≠ 0 :=
    ne_of_gt (Real.sqrt_pos.mpr hc)
  have hsq :
      Real.sqrt ((data.length : ℝ) - 1) * Real.sqrt ((data.length : ℝ) - 1) =
        (data.length : ℝ) - 1 := Real.mul_self_sqrt hc.le
  rw [r_val, sampleStdDev, sampleStdDev, sampleVariance, sampleVariance, hxlen, hylen,
    Real.sqrt_div hA0, Real.sqrt_div hB0]
  rw [show ((data.length : ℝ) - 1) *
        (Real.sqrt ((data.map Prod.fst).map
            (fun v => (v - sampleMean (data.map Prod.fst)) ^ 2)).sum /
          Real.sqrt ((data.length : ℝ) - 1)) *
        (Real.sqrt ((data.map Prod.snd).map
            (fun v => (v - sampleMean (data.map Prod.snd)) ^ 2)).sum /
          Real.sqrt ((data.length : ℝ) - 1)) =
      Real.sqrt ((data.map Prod.fst).map
          (fun v => (v - sampleMean (data.map Prod.fst)) ^ 2)).sum *
        Real.sqrt ((data.map Prod.snd).map
          (fun v => (v - sampleMean (data.map Prod.snd)) ^ 2)).sum by
    field_simp
    ring]
  have hden_pos :
      0 < Real.sqrt ((data.map Prod.fst).map
            (fun v => (v - sampleMean (data.map Prod.fst)) ^ 2)).sum *
          Real.sqrt ((data.map Prod.snd).map
            (fun v => (v - sampleMean (data.map Prod.snd)) ^ 2)).sum :=
    mul_pos (Real.sqrt_pos.mpr hApos) (Real.sqrt_pos.mpr hBpos)
  rw [abs_div, abs_of_pos hden_pos, div_le_one hden_pos]
  have hAeq :
      ((data.map Prod.fst).map (fun v => (v - sampleMean (data.map Prod.fst)) ^ 2)).sum =
        ∑ i in Finset.range data.length,
          ((data.map Prod.fst).getD i 0 - sampleMean (data.map Prod.fst)) ^ 2 := by
    rw [← sum_range_getD (fun v => (v - sampleMean (data.map Prod.fst)) ^ 2) 0
      (data.map Prod.fst), hxlen]
  have hBeq :
      ((data.map Prod.snd).map (fun v => (v - sampleMean (data.map Prod.snd)) ^ 2)).sum =
        ∑ i in Finset.range data.length,
          ((data.map Prod.snd).getD i 0 - sampleMean (data.map Prod.snd)) ^ 2 := by
    rw [← sum_range_getD (fun v => (v - sampleMean (data.map Prod.snd)) ^ 2) 0
      (data.map Prod.snd), hylen]
  have hSeq : r_num data =
      ∑ i in Finset.range data.length,
        ((data.map Prod.fst).getD i 0 - sampleMean (data.map Prod.fst)) *
          ((data.map Prod.snd).getD i 0 - sampleMean (data.map Prod.snd)) := by
    rw [r_num, hxlen]
  have hcs :
      (∑ i in Finset.range data.length,
          ((data.map Prod.fst).getD i 0 - sampleMean (data.map Prod.fst)) *
            ((data.map Prod.snd).getD i 0 - sampleMean (data.map Prod.snd))) ^ 2 ≤
        (∑ i in Finset.range data.length,
            ((data.map Prod.fst).getD i 0 - sampleMean (data.map Prod.fst)) ^ 2) *
          ∑ i in Finset.range data.length,
            ((data.map Prod.snd).getD i 0 - sampleMean (data.map Prod.snd)) ^ 2 :=
    Finset.sum_mul_sq_le_sq_mul_sq (Finset.range data.length)
      (fun i => (data.map Prod.fst).getD i 0 - sampleMean (data.map Prod.fst))
      (fun i => (data.map Prod.snd).getD i 0 - sampleMean (data.map Prod.snd))
  calc |r_num data| = Real.sqrt (r_num data ^ 2) := (Real.sqrt_sq_eq_abs _).symm
    _ ≤ Real.sqrt
        (((data.map Prod.fst).map (fun v => (v - sampleMean (data.map Prod.fst)) ^ 2)).sum *
          ((data.map Prod.snd).map (fun v => (v - sampleMean (data.map Prod.snd)) ^ 2)).sum) := by
      apply Real.sqrt_le_sqrt
      rw [hAeq, hBeq, hSeq]
      exact hcs
    _ = _ := Real.sqrt_mul hA0 _

/-- C1: for every non-empty slice of pairs, `LinearRegression::new`
succeeds and computes the Pearson correlation `r` as the sum of
`(xᵢ − meanX)·(yᵢ − meanY)` over all pairs divided by
`(n − 1)·stdX·stdY`, the slope as `r·(stdY/stdX)`, and the intercept as
`meanY − slope·meanX`, where the means and Bessel-corrected standard
deviations are taken over the x and y coordinate sequences; these are
exactly the values held by the model's `r`, `slope` and `intercept`
fields, which the accessors return. -/
theorem c1_lr_formulas (data : List (ℝ × ℝ)) (h : data ≠ []) :
    ∃ m, LinearRegression.new data = .ok m ∧
      m.r =
        (data.map (fun p =>
          (p.1 - sampleMean (data.map Prod.fst)) *
            (p.2 - sampleMean (data.map Prod.snd)))).sum /
          (((data.length : ℝ) - 1) * sampleStdDev (data.map Prod.fst) *
            sampleStdDev (data.map Prod.snd)) ∧
      m.slope =
        m.r * (sampleStdDev (data.map Prod.snd) / sampleStdDev (data.map Prod.fst)) ∧
      m.intercept =
        sampleMean (data.map Prod.snd) - m.slope * sampleMean (data.map Prod.fst) := by
  refine ⟨_, new_eq_ok data h, ?_, ?_, ?_⟩
  · show r_val data = _
    rw [r_val, r_num_eq]
  · rfl
  · rfl

/-- C1 witness: the formulas instantiated at the concrete sample
`[(1,2),(2,4),(3,6)]`. -/
theorem c1_lr_formulas_witness :
    ∃ m, LinearRegression.new sample3 = .ok m ∧
      m.r =
        (sample3.map (fun p =>
          (p.1 - sampleMean (sample3.map Prod.fst)) *
            (p.2 - sampleMean (sample3.map Prod.snd)))).sum /
          (((sample3.length : ℝ) - 1) * sampleStdDev (sample3.map Prod.fst) *
            sampleStdDev (sample3.map Prod.snd)) ∧
      m.slope =
        m.r * (sampleStdDev (sample3.map Prod.snd) / sampleStdDev (sample3.map Prod.fst)) ∧
      m.intercept =
        sampleMean (sample3.map Prod.snd) - m.slope * sampleMean (sample3.map Prod.fst) :=
  c1_lr_formulas sample3 (by simp [sample3])

/-- C2: `LinearRegression::new` fails with `EmptySample` exactly on the
empty slice: the empty slice yields the `EmptySample` error, and no
non-empty slice does. -/
theorem c2_empty_sample :
    LinearRegression.new [] = .error .EmptySample ∧
      ∀ data : List (ℝ × ℝ), data ≠ [] →
        LinearRegression.new data ≠ .error .EmptySample := by
  constructor
  · simp [LinearRegression.new]
  · intro data h
    rw [new_eq_ok data h]
    simp

/-- C2 witness: the non-empty sample `[(1,2),(2,4),(3,6)]` does not
produce `EmptySample`. -/
theorem c2_empty_sample_witness :
    LinearRegression.new sample3 ≠ .error .EmptySample :=
  c2_empty_sample.2 sample3 (by simp [sample3])

/-- C3: every fitted model's `standard_error` field (returned by the
`standard_error()` accessor) equals `(slope/√df)·√(1/r² − 1)` with
`df = n − 2`, in terms of the model's own `slope` and `r`. -/
theorem c3_standard_error (data : List (ℝ × ℝ)) (m : LinearRegression)
    (h : LinearRegression.new data = .ok m) :
    m.standard_error =
      (m.slope / Real.sqrt ((data.length : ℝ) - 2)) *
        Real.sqrt (1 / m.r ^ 2 - 1) := by
  by_cases hd : data = []
  · subst hd
    simp [LinearRegression.new] at h
  · rw [new_eq_ok data hd] at h
    injection h with h'
    subst h'
    rfl

/-- C3 witness: the standard-error formula instantiated at the fitted
model of `[(1,2),(2,4),(3,6)]`. -/
theorem c3_standard_error_witness :
    (LinearRegression.mk 0 1 2 0).standard_error =
      ((LinearRegression.mk 0 1 2 0).slope / Real.sqrt ((sample3.length : ℝ) - 2)) *
        Real.sqrt (1 / (LinearRegression.mk 0 1 2 0).r ^ 2 - 1) :=
  c3_standard_error sample3 (LinearRegression.mk 0 1 2 0) lr_sample3

/-- C4: on `[(1,2),(2,4),(3,6)]` the fit succeeds with slope 2,
intercept 0, r 1, and `df = n − 2 = 1`; the computed standard error is
the degenerate value `0` (the perfect correlation `r = 1` makes
`√(1/r² − 1)` vanish). -/
theorem c4_sample3 :
    LinearRegression.new sample3 =
      .ok { intercept := 0, r := 1, slope := 2, standard_error := 0 } ∧
      ((sample3.length : ℝ) - 2) = 1 :=
  ⟨lr_sample3, by norm_num [sample3]⟩

/-- C5: for every fitted model, `slope × stdX = r × stdY` where `stdX`
and `stdY` are the Bessel-corrected standard deviations of the
coordinate sequences (exact over the real-number embedding; the source
holds it up to floating tolerance). -/
theorem c5_slope_identity (data : List (ℝ × ℝ)) (m : LinearRegression)
    (h : LinearRegression.new data = .ok m) :
    m.slope * sampleStdDev (data.map Prod.fst) =
      m.r * sampleStdDev (data.map Prod.snd) := by
  by_cases hd : data = []
  · subst hd
    simp [LinearRegression.new] at h
  · rw [new_eq_ok data hd] at h
    injection h with h'
    subst h'
    show slope_val data * _ = r_val data * _
    rcases eq_or_ne (sampleStdDev (data.map Prod.fst)) 0 with h0 | h0
    · have hr : r_val data = 0 := by
        rw [r_val, h0]
        simp
      rw [slope_val, hr]
      simp
    · rw [slope_val, mul_assoc, div_mul_cancel₀ _ h0]

/-- C5 witness: the identity at the fitted model of
`[(1,2),(2,4),(3,6)]`. -/
theorem c5_slope_identity_witness :
    (LinearRegression.mk 0 1 2 0).slope * sampleStdDev (sample3.map Prod.fst) =
      (LinearRegression.mk 0 1 2 0).r * sampleStdDev (sample3.map Prod.snd) :=
  c5_slope_identity sample3 (LinearRegression.mk 0 1 2 0) lr_sample3

/-- C6: for every paired sample whose coordinate sequences both have
strictly positive Bessel-corrected standard deviation, the fitted
model's `r` lies in `[−1, 1]`. -/
theorem c6_r_bounded (data : List (ℝ × ℝ)) (m : LinearRegression)
    (h : LinearRegression.new data = .ok m)
    (hx : 0 < sampleStdDev (data.map Prod.fst))
    (hy : 0 < sampleStdDev (data.map Prod.snd)) :
    -1 ≤ m.r ∧ m.r ≤ 1 := by
  by_cases hd : data = []
  · subst hd
    simp [LinearRegression.new] at h
  · rw [new_eq_ok data hd] at h
    injection h with h'
    subst h'
    exact abs_le.mp (abs_r_val_le_one data hx hy)

/-- C6 witness: the bound at the non-degenerate sample
`[(1,2),(2,4),(3,6)]` (stdX = 1, stdY = 2). -/
theorem c6_r_bounded_witness :
    -1 ≤ (LinearRegression.mk 0 1 2 0).r ∧ (LinearRegression.mk 0 1 2 0).r ≤ 1 :=
  c6_r_bounded sample3 (LinearRegression.mk 0 1 2 0) lr_sample3
    (by rw [map_fst_s3, stdDev_x3]; norm_num)
    (by rw [map_snd_s3, stdDev_y3]; norm_num)

/-- C7: `LinearRegression::new` has no guard beyond the emptiness check:
every non-empty slice produces an `Ok` model, including degenerate ones.
The divisions and square roots run unconditionally, so degenerate inputs
yield a model whose fields are the junk results of those operations
inside an `Ok`, not a distinguishable error: in this real-number
embedding the zero divisor arising from `stdX = 0` makes `r` and `slope`
the junk value `0` (in `f64`, non-finite), and `n ≤ 2` (so `df ≤ 0`)
makes `standard_error` a junk value produced by dividing by `√df = 0`
(in `f64`, non-finite). -/
theorem c7_no_guard :
    (∀ data : List (ℝ × ℝ), data ≠ [] → ∃ m, LinearRegression.new data = .ok m) ∧
      (∀ (data : List (ℝ × ℝ)) (m : LinearRegression),
        LinearRegression.new data = .ok m →
        sampleStdDev (data.map Prod.fst) = 0 → m.r = 0 ∧ m.slope = 0) ∧
      (∀ (data : List (ℝ × ℝ)) (m : LinearRegression),
        LinearRegression.new data = .ok m → data.length ≤ 2 →
        m.standard_error = 0) := by
  refine ⟨?_, ?_, ?_⟩
  · intro data h
    exact ⟨_, new_eq_ok data h⟩
  · intro data m h h0
    by_cases hd : data = []
    · subst hd
      simp [LinearRegression.new] at h
    · rw [new_eq_ok data hd] at h
      injection h with h'
      subst h'
      have hr : r_val data = 0 := by
        rw [r_val, h0]
        simp
      exact ⟨hr, by rw [show (LinearRegression.mk (intercept_val data) (r_val data)
        (slope_val data) (se_val data)).slope = slope_val data from rfl, slope_val, hr,
        zero_mul]⟩
  · intro data m h hlen
    by_cases hd : data = []
    · subst hd
      simp [LinearRegression.new] at h
    · rw [new_eq_ok data hd] at h
      injection h with h'
      subst h'
      show se_val data = 0
      have hdf : Real.sqrt ((data.length : ℝ) - 2) = 0 := by
        have h2 : (data.length : ℝ) ≤ 2 := by exact_mod_cast hlen
        exact Real.sqrt_eq_zero_of_nonpos (by linarith)
      rw [se_val, hdf, div_zero, zero_mul]

/-- C7 witness: the degenerate sample `[(1,1),(1,2)]` (all x equal,
n = 2) is accepted with an `Ok` model whose `r`, `slope` and
`standard_error` are the junk value `0`. -/
theorem c7_no_guard_witness :
    (∃ m, LinearRegression.new sampleDeg = .ok m) ∧
      ((LinearRegression.mk (3 / 2) 0 0 0).r = 0 ∧
        (LinearRegression.mk (3 / 2) 0 0 0).slope = 0) ∧
      (LinearRegression.mk (3 / 2) 0 0 0).standard_error = 0 :=
  ⟨c7_no_guard.1 sampleDeg (by simp [sampleDeg]),
    c7_no_guard.2.1 sampleDeg (LinearRegression.mk (3 / 2) 0 0 0) lr_sampleDeg
      (by rw [map_fst_deg]; exact stdDev_x_deg),
    c7_no_guard.2.2 sampleDeg (LinearRegression.mk (3 / 2) 0 0 0) lr_sampleDeg
      (by norm_num [sampleDeg])⟩

/-- C8: `read_data` skips lines that are empty after trimming; with lax
parsing it silently discards every line that fails to parse and returns
the successfully parsed values in input order (the filter-map of the
trimmed non-blank lines); with lax parsing disabled a malformed line
terminates the read immediately with a diagnostic (the offending trimmed
line) instead of being recovered. -/
theorem c8_read_data {σ α : Type} (trim : σ → σ) (is_empty : σ → Bool)
    (parse : σ → Option α) :
    (∀ (lax : Bool) (l : σ) (ls : List σ), is_empty (trim l) = true →
        read_data trim is_empty parse lax (l :: ls) =
          read_data trim is_empty parse lax ls) ∧
      (∀ lines : List σ,
        read_data trim is_empty parse true lines =
          .ok (lines.filterMap
            (fun l => if is_empty (trim l) then none else parse (trim l)))) ∧
      (∀ (l : σ) (ls : List σ), is_empty (trim l) = false → parse (trim l) = none →
        read_data trim is_empty parse false (l :: ls) = .error (trim l)) := by
  refine ⟨?_, ?_, ?_⟩
  · intro lax l ls h
    simp [read_data, h]
  · intro lines
    induction lines with
    | nil => simp [read_data]
    | cons l ls ih =>
      by_cases h : is_empty (trim l) = true
      · simp [read_data, h, ih]
      · rw [Bool.not_eq_true] at h
        cases hp : parse (trim l) with
        | some d => simp [read_data, h, hp, ih]
        | none => simp [read_data, h, hp, ih]
  · intro l ls h hp
    simp [read_data, h, hp]

/-- C8 witness: with a concrete parse function, lax mode drops the
malformed line `"x"` and keeps `[1, 2]` in order, while strict mode
aborts at `"x"`; the blank line is skipped in both. -/
theorem c8_read_data_witness :
    read_data id String.isEmpty
        (fun s => if s = "1" then some (1 : ℕ) else if s = "2" then some 2 else none)
        true ["1", "", "x", "2"] = .ok [1, 2] ∧
      read_data id String.isEmpty
        (fun s => if s = "1" then some (1 : ℕ) else if s = "2" then some 2 else none)
        false ["x", "2"] = .error "x" := by
  constructor
  · rw [(c8_read_data id String.isEmpty
      (fun s => if s = "1" then some (1 : ℕ) else if s = "2" then some 2 else none)).2.1
      ["1", "", "x", "2"]]
    rfl
  · exact (c8_read_data id String.isEmpty
      (fun s => if s = "1" then some (1 : ℕ) else if s = "2" then some 2 else none)).2.2
      "x" ["2"] (by decide) (by decide)

/-- C9: `parse_alpha` maps exactly the six accepted string forms of the
closed significance-level set {0.001, 0.005, 0.01, 0.025, 0.05, 0.1} to
their `SigLevel`, and every other input string yields the
invalid-configuration error instead of a level. -/
theorem c9_parse_alpha :
    parse_alpha ".001" = .ok .Alpha001 ∧
      parse_alpha ".005" = .ok .Alpha005 ∧
      parse_alpha ".01" = .ok .Alpha010 ∧
      parse_alpha ".025" = .ok .Alpha025 ∧
      parse_alpha ".05" = .ok .Alpha050 ∧
      parse_alpha ".1" = .ok .Alpha100 ∧
      ∀ s : String,
        s ∉ ([".001", ".005", ".01", ".025", ".05", ".1"] : List String) →
        parse_alpha s = .error () := by
  refine ⟨rfl, rfl, rfl, rfl, rfl, rfl, ?_⟩
  intro s hs
  simp only [List.mem_cons, List.not_mem_nil, or_false, not_or] at hs
  obtain ⟨h1, h2, h3, h4, h5, h6⟩ := hs
  simp [parse_alpha, h1, h2, h3, h4, h5, h6]

/-- C9 witness: the decimal form `"0.05"` (not among the six accepted
strings) is rejected. -/
theorem c9_parse_alpha_witness : parse_alpha "0.05" = .error () :=
  c9_parse_alpha.2.2.2.2.2.2 "0.05" (by decide)

/-- C10: `LinearRegression::new` is a deterministic pure function of its
input slice: fitting equal slices yields models with identical
`intercept`, `slope`, `r` and `standard_error` fields (the embedding is
a mathematical function, with no state or I/O to depend on). -/
theorem c10_deterministic :
    ∀ (data₁ data₂ : List (ℝ × ℝ)), data₁ = data₂ →
      ∀ (m₁ m₂ : LinearRegression),
        LinearRegression.new data₁ = .ok m₁ →
        LinearRegression.new data₂ = .ok m₂ →
        m₁.intercept = m₂.intercept ∧ m₁.slope = m₂.slope ∧ m₁.r = m₂.r ∧
          m₁.standard_error = m₂.standard_error := by
  intro d₁ d₂ heq m₁ m₂ h₁ h₂
  subst heq
  rw [h₁] at h₂
  injection h₂ with h₃
  subst h₃
  exact ⟨rfl, rfl, rfl, rfl⟩

/-- C10 witness: two fits of the same concrete sample agree on every
field. -/
theorem c10_deterministic_witness :
    (LinearRegression.mk 0 1 2 0).intercept = (LinearRegression.mk 0 1 2 0).intercept ∧
      (LinearRegression.mk 0 1 2 0).slope = (LinearRegression.mk 0 1 2 0).slope ∧
      (LinearRegression.mk 0 1 2 0).r = (LinearRegression.mk 0 1 2 0).r ∧
      (LinearRegression.mk 0 1 2 0).standard_error =
        (LinearRegression.mk 0 1 2 0).standard_error :=
  c10_deterministic sample3 sample3 rfl (LinearRegression.mk 0 1 2 0)
    (LinearRegression.mk 0 1 2 0) lr_sample3 lr_sample3
